import Mathlib

/-!
# Verification of the 82f46979 / dynamomq queue SDK

A shallow embedding of the DynamoDB-backed priority-queue SDK.

The repository carries two generations of the API:

* the legacy "Shipment" client (`sdk/sdk.go`, `sdk/system_info.go`): its
  operations (`Get`, `Put`, `UpdateStatus`, `Enqueue`, `Peek`, `Remove`,
  `Restore`, `SendToDLQ`, `Touch`, `Delete`, `GetQueueStats`, ...) are embedded
  in the `Sdk` namespace below;
* the newer "Message / queue_type" client (`SendMessage`, `ReceiveMessage`,
  `DeleteMessage`, `MoveMessageToDLQ`, `GetQueueStats`): the client and
  message-state sources are not part of this tree (only their tests and thin
  wrappers are), so those operations are modelled from the specification in
  the `MQ` namespace and cross-checked against the expectations of the
  in-tree tests.

Conventions of the embedding:

* timestamps and clock instants are `Nat` (RFC3339 formatting of an instant is
  injective and order preserving, so instants stand in for their formatted
  strings);
* a DynamoDB table is a `List` of records; the list order is the order of the
  `queued` / `queue_type` secondary index (ascending sort key), which is the
  order in which every index query of the SDK returns records;
* every fallible operation returns an `Except Err` value, and operations that
  touch the store also return the updated table and the trace of store calls
  they issued.
-/

namespace Sdk

/-- Error taxonomy of the client (`sdk/errors.go` surface used by `sdk/sdk.go`). -/
inductive Err where
  | idNotProvided
  | idNotFound
  | idDuplicated
  | emptyQueue
  | conditionalCheckFailed
  | recordNotConstructed
  | illegalState
  deriving Repr, DecidableEq

/-- One store call issued by a client operation (suspension points of §5). -/
inductive StoreOp where
  | getItem (id : String)
  | query
  | updateItem (id : String)
  | deleteItem (id : String)
  | putItem (id : String)
  deriving Repr, DecidableEq

/-- Legacy status enum (`UNDER_CONSTRUCTION`, `READY_TO_SHIP`, ... model). -/
inductive Status where
  | underConstruction
  | readyToShip
  | processingShipment
  | completed
  | inDLQ
  deriving Repr, DecidableEq

/-- `sdk.SystemInfo` (`sdk/system_info.go`): the `system_info` attribute map. -/
structure SystemInfo where
  id : String
  creationTimestamp : Nat
  lastUpdatedTimestamp : Nat
  status : Status
  version : Nat
  inQueue : Nat
  selectedFromQueue : Bool
  addToQueueTimestamp : Nat
  addToDlqTimestamp : Nat
  peekFromQueueTimestamp : Nat
  removeFromQueueTimestamp : Nat
  peekUTCTimestamp : Nat
  deriving Repr, DecidableEq

/-- `sdk.ShipmentData` (payload; `newTestShipmentData` shape in `sdk/sdk.go`). -/
structure ShipmentData where
  id : String
  data1 : String
  data2 : String
  data3 : String
  items : List (String × Bool)
  deriving Repr, DecidableEq

/-- `sdk.Shipment`: one record of the table. `queued` and `dlq` are the
top-level number attributes that partition the two secondary indexes; they are
`Option Nat` because the update expressions of `Remove`, `Restore` and
`SendToDLQ` delete them with a `REMOVE` clause. -/
structure Shipment where
  id : String
  data : ShipmentData
  queued : Option Nat
  dlq : Option Nat
  lastUpdatedTimestamp : Nat
  systemInfo : SystemInfo
  deriving Repr, DecidableEq

/-- The table: records listed in queue-index order (ascending
`last_updated_timestamp` inside each index partition). -/
abbrev Table := List Shipment

/-- `GetItem` by primary key: first record with the given `id`. -/
def findItem (tbl : Table) (id : String) : Option Shipment :=
  tbl.find? (fun s => s.id == id)

/-- `sdk.Result` (`result.go`): common result of the mutating operations. -/
structure Result where
  id : String
  status : Status
  lastUpdatedTimestamp : Nat
  version : Nat
  deriving Repr, DecidableEq

/-- Modelled from the spec (the legacy `model.Shipment` state-transition file
is not part of this tree): `MarkAsEnqueued` puts the record in the standard
queue — status `READY_TO_SHIP`, queue flags set, queue-add and last-updated
timestamps stamped with `now` (spec §4.1, transition into the queue; pinned by
the `want` values of `TestQueueSDKClientEnqueue`). It does not touch
`version`. -/
def markAsEnqueued (s : Shipment) (now : Nat) : Shipment :=
  { s with
    queued := some 1
    lastUpdatedTimestamp := now
    systemInfo := { s.systemInfo with
      status := .readyToShip
      inQueue := 1
      selectedFromQueue := false
      lastUpdatedTimestamp := now
      addToQueueTimestamp := now } }

/-- Modelled from the spec (legacy `model.Shipment` is not in this tree):
`MarkAsPeeked` is the READY→PROCESSING receive transition — marks the record
selected, stamps the peek timestamps and both `last_updated_timestamp`
attributes with `now` (spec §4.1 `markAsProcessing`; pinned by the `want`
values of `TestQueueSDKClientPeek`, whose expected `Result` and stored record
carry the peek instant in both timestamps). It does not touch `version`. -/
def markAsPeeked (s : Shipment) (now : Nat) : Shipment :=
  { s with
    lastUpdatedTimestamp := now
    systemInfo := { s.systemInfo with
      status := .processingShipment
      selectedFromQueue := true
      lastUpdatedTimestamp := now
      peekFromQueueTimestamp := now
      peekUTCTimestamp := now } }

/-- Modelled from the spec (legacy `model.Shipment` is not in this tree):
`MarkAsDLQ` moves the record to the dead-letter queue — DLQ flag set, queue
flags cleared, DLQ-add and last-updated timestamps stamped (spec §4.1
`markAsMovedToDLQ`). It does not touch `version`. -/
def markAsDLQ (s : Shipment) (now : Nat) : Shipment :=
  { s with
    queued := none
    dlq := some 1
    lastUpdatedTimestamp := now
    systemInfo := { s.systemInfo with
      status := .inDLQ
      inQueue := 0
      selectedFromQueue := false
      lastUpdatedTimestamp := now
      addToDlqTimestamp := now } }

/-- Modelled from the spec (legacy `model.Shipment` is not in this tree):
`ChangeStatus` sets the new status and stamps both `last_updated_timestamp`
attributes (pinned by the `want` values of `TestQueueSDKClientUpdateStatus`).
It does not touch `version`. -/
def changeStatus (s : Shipment) (newStatus : Status) (now : Nat) : Shipment :=
  { s with
    lastUpdatedTimestamp := now
    systemInfo := { s.systemInfo with
      status := newStatus
      lastUpdatedTimestamp := now } }

/-- Modelled from the spec (legacy `model.Shipment` is not in this tree):
`Shipment.Touch` stamps both `last_updated_timestamp` attributes with `now`
(doc comment of `Touch` in `sdk/sdk.go`). It does not touch `version`. -/
def touchShipment (s : Shipment) (now : Nat) : Shipment :=
  { s with
    lastUpdatedTimestamp := now
    systemInfo := { s.systemInfo with lastUpdatedTimestamp := now } }

/-!
## Conditional updates (`updateDynamoDBItem` and the expression builders)

Every mutating operation of `sdk/sdk.go` builds one update expression with
`ADD system_info.version 1`, some `SET`/`REMOVE` clauses whose values come
from the marked in-memory copy of the record, and a condition
`system_info.version = <observed version>` (for `SendToDLQ` additionally
`system_info.queued = 1`), and hands it to `updateDynamoDBItem`.
-/

/-- The parts of a built update expression that the store evaluates: the
condition and the `SET`/`REMOVE` clauses (`setFields`). The
`ADD system_info.version 1` clause shared by every expression is interpreted by
`updateDynamoDBItem` itself. -/
structure UpdateSpec where
  condVersion : Nat
  condQueuedOne : Bool
  setFields : Shipment → Shipment

/-- Condition expression of an update: `system_info.version = :v`
(and for `SendToDLQ` also `system_info.queued = 1`). -/
def condHolds (spec : UpdateSpec) (s : Shipment) : Bool :=
  s.systemInfo.version == spec.condVersion
    && (!spec.condQueuedOne || s.systemInfo.inQueue == 1)

/-- `updateDynamoDBItem` (`sdk/sdk.go`): `UpdateItem` with the built condition
and update expression, `ReturnValues = ALL_NEW`. The store applies the
`SET`/`REMOVE` clauses and `ADD system_info.version 1` to the stored record
only when the condition holds against the stored record; otherwise the call
fails with `ConditionalCheckFailedException` (also when no record with the key
exists, since the condition then fails). -/
def updateDynamoDBItem (tbl : Table) (id : String) (spec : UpdateSpec) :
    Except Err (Shipment × Table) :=
  match findItem tbl id with
  | none => .error .conditionalCheckFailed
  | some s =>
    if condHolds spec s then
      let apply : Shipment → Shipment := fun t =>
        let t2 := spec.setFields t
        { t2 with systemInfo := { t2.systemInfo with version := t.systemInfo.version + 1 } }
      .ok (apply s, tbl.map (fun t => if t.id == id then apply t else t))
    else
      .error .conditionalCheckFailed

/-- The seven mutating operations whose updates run through
`updateDynamoDBItem` (`UpdateStatus`, `Enqueue`, `Peek`, `Remove`, `Restore`,
`SendToDLQ`, `Touch`). -/
inductive MutOp where
  | updateStatus (newStatus : Status)
  | enqueue
  | peek
  | remove
  | restore
  | sendToDLQ
  | touch
  deriving Repr, DecidableEq

/-- The update expression each operation builds in `sdk/sdk.go`, given the
record it observed (`observed`, the result of its read) and the clock instant.
Clause for clause from the `expression.NewBuilder()` calls:

* `UpdateStatus`: `SET` status and both last-updated timestamps from the
  `ChangeStatus`-marked copy; condition on the observed version;
* `Enqueue` / `Restore`: `SET` queue flags, timestamps and status from the
  `MarkAsEnqueued`-marked copy (`Restore` also `REMOVE DLQ`); condition on the
  observed version;
* `Peek`: `SET` selected flag, both last-updated timestamps, peek timestamps
  and status from the `MarkAsPeeked`-marked copy; condition on the version
  observed by the index query;
* `Remove`: `REMOVE queued, DLQ`; `SET` queue flags cleared and remove/update
  timestamps to `now`; condition on the observed version;
* `SendToDLQ`: `REMOVE queued`; `SET` DLQ flag, queue flags, timestamps and
  status from the `MarkAsDLQ`-marked copy; condition on the observed version
  AND `system_info.queued = 1`;
* `Touch`: `SET` both last-updated timestamps from the `Touch`-marked copy;
  condition on the observed version. -/
def buildSpec : MutOp → Shipment → Nat → UpdateSpec
  | .updateStatus newStatus, observed, now =>
    let marked := changeStatus observed newStatus now
    { condVersion := marked.systemInfo.version
      condQueuedOne := false
      setFields := fun s =>
        { s with
          lastUpdatedTimestamp := marked.lastUpdatedTimestamp
          systemInfo := { s.systemInfo with
            status := marked.systemInfo.status
            lastUpdatedTimestamp := marked.systemInfo.lastUpdatedTimestamp } } }
  | .enqueue, observed, now =>
    let marked := markAsEnqueued observed now
    { condVersion := marked.systemInfo.version
      condQueuedOne := false
      setFields := fun s =>
        { s with
          queued := marked.queued
          lastUpdatedTimestamp := marked.lastUpdatedTimestamp
          systemInfo := { s.systemInfo with
            inQueue := marked.systemInfo.inQueue
            selectedFromQueue := marked.systemInfo.selectedFromQueue
            lastUpdatedTimestamp := marked.systemInfo.lastUpdatedTimestamp
            addToQueueTimestamp := marked.systemInfo.addToQueueTimestamp
            status := marked.systemInfo.status } } }
  | .peek, observed, now =>
    let marked := markAsPeeked observed now
    { condVersion := observed.systemInfo.version
      condQueuedOne := false
      setFields := fun s =>
        { s with
          lastUpdatedTimestamp := marked.lastUpdatedTimestamp
          systemInfo := { s.systemInfo with
            selectedFromQueue := marked.systemInfo.selectedFromQueue
            lastUpdatedTimestamp := marked.systemInfo.lastUpdatedTimestamp
            peekFromQueueTimestamp := marked.systemInfo.peekFromQueueTimestamp
            peekUTCTimestamp := marked.systemInfo.peekUTCTimestamp
            status := marked.systemInfo.status } } }
  | .remove, observed, now =>
    { condVersion := observed.systemInfo.version
      condQueuedOne := false
      setFields := fun s =>
        { s with
          queued := none
          dlq := none
          lastUpdatedTimestamp := now
          systemInfo := { s.systemInfo with
            inQueue := 0
            selectedFromQueue := false
            lastUpdatedTimestamp := now
            removeFromQueueTimestamp := now } } }
  | .restore, observed, now =>
    let marked := markAsEnqueued observed now
    { condVersion := observed.systemInfo.version
      condQueuedOne := false
      setFields := fun s =>
        { s with
          queued := marked.queued
          dlq := none
          lastUpdatedTimestamp := marked.lastUpdatedTimestamp
          systemInfo := { s.systemInfo with
            inQueue := marked.systemInfo.inQueue
            selectedFromQueue := marked.systemInfo.selectedFromQueue
            lastUpdatedTimestamp := marked.systemInfo.lastUpdatedTimestamp
            addToQueueTimestamp := marked.systemInfo.addToQueueTimestamp
            status := marked.systemInfo.status } } }
  | .sendToDLQ, observed, now =>
    let marked := markAsDLQ observed now
    { condVersion := marked.systemInfo.version
      condQueuedOne := true
      setFields := fun s =>
        { s with
          queued := none
          dlq := marked.dlq
          lastUpdatedTimestamp := marked.lastUpdatedTimestamp
          systemInfo := { s.systemInfo with
            inQueue := marked.systemInfo.inQueue
            selectedFromQueue := marked.systemInfo.selectedFromQueue
            lastUpdatedTimestamp := marked.systemInfo.lastUpdatedTimestamp
            addToDlqTimestamp := marked.systemInfo.addToDlqTimestamp
            status := marked.systemInfo.status } } }
  | .touch, observed, now =>
    let marked := touchShipment observed now
    { condVersion := marked.systemInfo.version
      condQueuedOne := false
      setFields := fun s =>
        { s with
          lastUpdatedTimestamp := marked.lastUpdatedTimestamp
          systemInfo := { s.systemInfo with
            lastUpdatedTimestamp := marked.systemInfo.lastUpdatedTimestamp } } }

lemma buildSpec_condVersion (op : MutOp) (observed : Shipment) (now : Nat) :
    (buildSpec op observed now).condVersion = observed.systemInfo.version := by
  cases op <;> rfl

lemma buildSpec_setFields_version (op : MutOp) (observed : Shipment) (now : Nat)
    (s : Shipment) :
    ((buildSpec op observed now).setFields s).systemInfo.version = s.systemInfo.version := by
  cases op <;> rfl

lemma buildSpec_setFields_id (op : MutOp) (observed : Shipment) (now : Nat)
    (s : Shipment) :
    ((buildSpec op observed now).setFields s).id = s.id := by
  cases op <;> rfl

end Sdk

namespace Sdk

lemma findItem_map_pred_preserved (tbl : Table) (id : String)
    (g : Shipment → Shipment) (hg : ∀ t, (g t).id = t.id) :
    findItem (tbl.map g) id = (findItem tbl id).map g := by
  unfold findItem
  have hpg : ((fun s : Shipment => s.id == id) ∘ g) = (fun s : Shipment => s.id == id) := by
    funext t
    simp [Function.comp, hg]
  rw [List.find?_map, hpg]

end Sdk

/-- C1: for every record and every mutating operation of the legacy client
(`UpdateStatus`, `Enqueue`, `Peek`, `Remove`, `Restore`, `SendToDLQ`, `Touch`)
that observed the record at version `v`, the built update expression executes
only when the stored version still equals `v`, and afterwards both the
returned (`ALL_NEW`) record and the stored record carry version exactly
`v + 1`. -/
theorem sdk_mutation_version_checked_increment
    (op : Sdk.MutOp) (observed : Sdk.Shipment) (now : Nat)
    (tbl : Sdk.Table) (id : String) (item : Sdk.Shipment) (tbl2 : Sdk.Table)
    (h : Sdk.updateDynamoDBItem tbl id (Sdk.buildSpec op observed now) = .ok (item, tbl2)) :
    (∃ s, Sdk.findItem tbl id = some s
        ∧ s.systemInfo.version = observed.systemInfo.version)
      ∧ item.systemInfo.version = observed.systemInfo.version + 1
      ∧ (∃ s2, Sdk.findItem tbl2 id = some s2
          ∧ s2.systemInfo.version = observed.systemInfo.version + 1) := by
  unfold Sdk.updateDynamoDBItem at h
  split at h
  next hf => exact absurd h (by simp)
  next s hf =>
    split at h
    next hc =>
      have hver : s.systemInfo.version = observed.systemInfo.version := by
        unfold Sdk.condHolds at hc
        have h1 : (s.systemInfo.version == (Sdk.buildSpec op observed now).condVersion) = true :=
          (Bool.and_eq_true _ _ ▸ hc).1
        have h2 : s.systemInfo.version = (Sdk.buildSpec op observed now).condVersion := by
          simpa using h1
        rwa [Sdk.buildSpec_condVersion] at h2
      simp only [Except.ok.injEq, Prod.mk.injEq] at h
      obtain ⟨hitem, htbl2⟩ := h
      refine ⟨⟨s, hf, hver⟩, ?_, ?_⟩
      · rw [← hitem]
        simp [Sdk.buildSpec_setFields_version, hver]
      · have hid : ∀ t : Sdk.Shipment,
            ((if t.id == id then
                (let t2 := (Sdk.buildSpec op observed now).setFields t
                 { t2 with systemInfo := { t2.systemInfo with version := t.systemInfo.version + 1 } })
              else t)).id = t.id := by
          intro t
          by_cases ht : t.id == id
          · simp only [ht, if_pos]
            exact Sdk.buildSpec_setFields_id op observed now t
          · simp [ht]
        rw [← htbl2]
        rw [Sdk.findItem_map_pred_preserved _ _ _ hid]
        rw [hf]
        have hf2 : List.find? (fun t : Sdk.Shipment => t.id == id) tbl = some s := hf
        have hsid : (s.id == id) = true := by
          have hps := List.find?_some hf2
          simpa using hps
        refine ⟨_, rfl, ?_⟩
        simp only [hsid, if_pos]
        simp [Sdk.buildSpec_setFields_version, hver]
    next hc => exact absurd h (by simp)

/-- Witness for `sdk_mutation_version_checked_increment` at a concrete record
and table: a `Touch` expression built from a version-3 record applies to a
table storing that record and yields version 4. -/
theorem sdk_mutation_version_checked_increment_witness :
    ∃ item tbl2,
      Sdk.updateDynamoDBItem
        [⟨"A-101", ⟨"A-101", "d1", "d2", "d3", []⟩, some 1, none, 5,
          ⟨"A-101", 0, 5, .readyToShip, 3, 1, false, 5, 0, 0, 0, 0⟩⟩]
        "A-101"
        (Sdk.buildSpec .touch
          ⟨"A-101", ⟨"A-101", "d1", "d2", "d3", []⟩, some 1, none, 5,
            ⟨"A-101", 0, 5, .readyToShip, 3, 1, false, 5, 0, 0, 0, 0⟩⟩ 9) = .ok (item, tbl2)
      ∧ item.systemInfo.version = 4 := by
  refine ⟨_, _, rfl, ?_⟩
  have := sdk_mutation_version_checked_increment .touch
    ⟨"A-101", ⟨"A-101", "d1", "d2", "d3", []⟩, some 1, none, 5,
      ⟨"A-101", 0, 5, .readyToShip, 3, 1, false, 5, 0, 0, 0, 0⟩⟩ 9
    [⟨"A-101", ⟨"A-101", "d1", "d2", "d3", []⟩, some 1, none, 5,
      ⟨"A-101", 0, 5, .readyToShip, 3, 1, false, 5, 0, 0, 0, 0⟩⟩]
    "A-101" _ _ rfl
  exact this.2.1

namespace Sdk

/-- `Get` (`sdk/sdk.go`): empty id → `IDNotProvidedError` before any store
call; otherwise one consistent `GetItem`, and an absent key yields `nil`
without an error. Returns the result together with the trace of store calls
issued. -/
def getShipment (tbl : Table) (id : String) :
    Except Err (Option Shipment) × List StoreOp :=
  if id = "" then (.error .idNotProvided, [])
  else (.ok (findItem tbl id), [.getItem id])

/-- `Delete` (`sdk/sdk.go`): empty id → `IDNotProvidedError`; otherwise an
unconditional `DeleteItem` by primary key. -/
def deleteShipment (tbl : Table) (id : String) :
    Except Err Unit × Table × List StoreOp :=
  if id = "" then (.error .idNotProvided, tbl, [])
  else (.ok (), tbl.filter (fun s => !(s.id == id)), [.deleteItem id])

/-- `UpdateStatus` (`sdk/sdk.go`): validate the id, read the record; a missing
record is `IDNotFoundError`; if the stored status already equals the requested
one, return the record's current fields without building or issuing any
update; otherwise run the status-change expression through
`updateDynamoDBItem`. -/
def updateStatus (tbl : Table) (id : String) (newStatus : Status) (now : Nat) :
    Except Err Result × Table × List StoreOp :=
  if id = "" then (.error .idNotProvided, tbl, [])
  else
    match findItem tbl id with
    | none => (.error .idNotFound, tbl, [.getItem id])
    | some shipment =>
      if shipment.systemInfo.status = newStatus then
        (.ok { id := shipment.id, status := newStatus,
               lastUpdatedTimestamp := shipment.systemInfo.lastUpdatedTimestamp,
               version := shipment.systemInfo.version }, tbl, [.getItem id])
      else
        match updateDynamoDBItem tbl id (buildSpec (.updateStatus newStatus) shipment now) with
        | .error e => (.error e, tbl, [.getItem id, .updateItem id])
        | .ok (item, tbl2) =>
          (.ok { id := item.systemInfo.id, status := item.systemInfo.status,
                 lastUpdatedTimestamp := item.systemInfo.lastUpdatedTimestamp,
                 version := item.systemInfo.version }, tbl2, [.getItem id, .updateItem id])

/-- `sdk.QueueStats` as assembled by `GetQueueStats`. -/
structure QueueStats where
  totalRecordsInProcessing : Nat
  totalRecordsInQueue : Nat
  totalRecordsNotStarted : Nat
  first100IDsInQueue : List String
  first100SelectedIDsInQueue : List String
  deriving Repr, DecidableEq

/-- The accumulation loop of `GetQueueStats` (`sdk/sdk.go`) over the
queue-index records in index order, with the `totalQueueSize`,
`peekedRecords`, `allQueueIDs` and `processingIDs` accumulators. -/
def statsLoop : List Shipment → Nat → Nat → List String → List String → QueueStats
  | [], total, peeked, allIDs, procIDs =>
    { totalRecordsInProcessing := peeked
      totalRecordsInQueue := total
      totalRecordsNotStarted := total - peeked
      first100IDsInQueue := allIDs
      first100SelectedIDsInQueue := procIDs }
  | item :: rest, total, peeked, allIDs, procIDs =>
    let total2 := total + 1
    let peeked2 := if item.systemInfo.selectedFromQueue then peeked + 1 else peeked
    let procIDs2 :=
      if item.systemInfo.selectedFromQueue && decide (procIDs.length < 100) then
        procIDs ++ [item.id]
      else procIDs
    let allIDs2 := if allIDs.length < 100 then allIDs ++ [item.id] else allIDs
    statsLoop rest total2 peeked2 allIDs2 procIDs2

/-- `GetQueueStats` (`sdk/sdk.go`): paginated forward query of the queue index
(partition `queued = 1`) feeding `statsLoop`. -/
def getQueueStats (tbl : Table) : QueueStats :=
  statsLoop (tbl.filter (fun s => s.queued == some 1)) 0 0 [] []

/-- The visibility predicate of spec §4.1 applied to a legacy record, as the
claim about `GetQueueStats` reads it: a record is classified still-invisible
iff it is not READY and the window opened at its receive (peek) instant has
not yet elapsed. This definition follows the specification's words, for
comparison with what `getQueueStats` actually counts. -/
def specStillInvisible (now visibilityTimeout : Nat) (s : Shipment) : Bool :=
  !(s.systemInfo.status == .readyToShip)
    && now < s.systemInfo.peekUTCTimestamp + visibilityTimeout

lemma take_append_step (ids : List String) (a : String) (l : List String) :
    (if ids.length < 100 then ids ++ [a] else ids)
        ++ l.take (100 - (if ids.length < 100 then ids ++ [a] else ids).length)
      = ids ++ (a :: l).take (100 - ids.length) := by
  by_cases h : ids.length < 100
  · simp only [h, if_pos, List.length_append, List.length_cons, List.length_nil]
    have h2 : 100 - ids.length = (100 - (ids.length + 1)) + 1 := by omega
    rw [h2, List.take_succ_cons, List.append_assoc]
    rfl
  · have h0 : 100 - ids.length = 0 := by omega
    simp [h, h0]

lemma statsLoop_spec (recs : List Shipment) (total peeked : Nat)
    (allIDs procIDs : List String) :
    statsLoop recs total peeked allIDs procIDs =
      { totalRecordsInProcessing :=
          peeked + (recs.filter (fun s => s.systemInfo.selectedFromQueue)).length
        totalRecordsInQueue := total + recs.length
        totalRecordsNotStarted :=
          (total + recs.length)
            - (peeked + (recs.filter (fun s => s.systemInfo.selectedFromQueue)).length)
        first100IDsInQueue := allIDs ++ (recs.map (fun s => s.id)).take (100 - allIDs.length)
        first100SelectedIDsInQueue :=
          procIDs ++ ((recs.filter (fun s => s.systemInfo.selectedFromQueue)).map
            (fun s => s.id)).take (100 - procIDs.length) } := by
  induction recs generalizing total peeked allIDs procIDs with
  | nil => simp [statsLoop]
  | cons item rest ih =>
    simp only [statsLoop]
    rw [ih]
    by_cases hsel : item.systemInfo.selectedFromQueue
    · simp only [hsel, List.filter_cons, List.map_cons, List.length_cons, if_true,
        Bool.true_and, decide_eq_true_eq, QueueStats.mk.injEq]
      refine ⟨by omega, by omega, by omega, ?_, ?_⟩
      · exact take_append_step allIDs item.id (rest.map (fun s => s.id))
      · have hstep := take_append_step procIDs item.id
          ((rest.filter (fun s => s.systemInfo.selectedFromQueue)).map (fun s => s.id))
        by_cases hlen : procIDs.length < 100 <;> simp [hlen] at hstep ⊢ <;> simpa using hstep
    · have hsel2 : item.systemInfo.selectedFromQueue = false := by simpa using hsel
      simp only [hsel2, List.filter_cons, List.map_cons, List.length_cons,
        Bool.false_eq_true, if_false, Bool.false_and, QueueStats.mk.injEq]
      and_intros <;> first
        | omega
        | trivial
        | exact take_append_step allIDs item.id (rest.map (fun s => s.id))

end Sdk

/-- C7: `Delete` with an empty ID returns `IDNotProvidedError`; with a
non-empty ID it is an unconditional primary-key delete, so deleting an ID that
is not in the table succeeds and leaves the table unchanged, and two
consecutive deletes of the same ID both succeed. -/
theorem sdk_delete_unconditional_idempotent (tbl : Sdk.Table) (id : String)
    (hid : id ≠ "") :
    (Sdk.deleteShipment tbl "").1 = .error .idNotProvided
      ∧ (Sdk.deleteShipment tbl id).1 = .ok ()
      ∧ ((∀ s ∈ tbl, s.id ≠ id) → (Sdk.deleteShipment tbl id).2.1 = tbl)
      ∧ (Sdk.deleteShipment (Sdk.deleteShipment tbl id).2.1 id).1 = .ok () := by
  refine ⟨by simp [Sdk.deleteShipment], by simp [Sdk.deleteShipment, hid], ?_, ?_⟩
  · intro habsent
    simp only [Sdk.deleteShipment, hid, if_neg, if_false]
    refine List.filter_eq_self.mpr ?_
    intro s hs
    simpa using habsent s hs
  · simp [Sdk.deleteShipment, hid]

/-- Witness for `sdk_delete_unconditional_idempotent`: deleting the absent ID
`B-202` from a one-record table succeeds, leaves the table unchanged, and a
second delete succeeds as well. -/
theorem sdk_delete_unconditional_idempotent_witness :
    (Sdk.deleteShipment
        [⟨"A-101", ⟨"A-101", "d1", "d2", "d3", []⟩, some 1, none, 0,
          ⟨"A-101", 0, 0, .readyToShip, 1, 1, false, 0, 0, 0, 0, 0⟩⟩] "B-202").1 = .ok ()
      ∧ (Sdk.deleteShipment
          [⟨"A-101", ⟨"A-101", "d1", "d2", "d3", []⟩, some 1, none, 0,
            ⟨"A-101", 0, 0, .readyToShip, 1, 1, false, 0, 0, 0, 0, 0⟩⟩] "B-202").2.1
        = [⟨"A-101", ⟨"A-101", "d1", "d2", "d3", []⟩, some 1, none, 0,
            ⟨"A-101", 0, 0, .readyToShip, 1, 1, false, 0, 0, 0, 0, 0⟩⟩] := by
  have h := sdk_delete_unconditional_idempotent
    [⟨"A-101", ⟨"A-101", "d1", "d2", "d3", []⟩, some 1, none, 0,
      ⟨"A-101", 0, 0, .readyToShip, 1, 1, false, 0, 0, 0, 0, 0⟩⟩] "B-202" (by decide)
  exact ⟨h.2.1, h.2.2.1 (by decide)⟩

/-- C9: `Get` with the empty string as ID returns `IDNotProvidedError` without
issuing any store call, while a non-empty ID that is not in the table issues
one read and yields `nil` with no error. -/
theorem sdk_get_empty_id_vs_missing (tbl : Sdk.Table) (id : String)
    (hid : id ≠ "") (habsent : ∀ s ∈ tbl, s.id ≠ id) :
    Sdk.getShipment tbl "" = (.error .idNotProvided, [])
      ∧ Sdk.getShipment tbl id = (.ok none, [.getItem id]) := by
  constructor
  · simp [Sdk.getShipment]
  · have hnone : Sdk.findItem tbl id = none := by
      refine List.find?_eq_none.mpr ?_
      intro s hs
      simpa using habsent s hs
    simp [Sdk.getShipment, hid, hnone]

/-- Witness for `sdk_get_empty_id_vs_missing`: at a one-record table, the
empty ID errors without a store call and the absent ID `B-202` reads `nil`. -/
theorem sdk_get_empty_id_vs_missing_witness :
    Sdk.getShipment
        [⟨"A-101", ⟨"A-101", "d1", "d2", "d3", []⟩, some 1, none, 0,
          ⟨"A-101", 0, 0, .readyToShip, 1, 1, false, 0, 0, 0, 0, 0⟩⟩] ""
      = (.error .idNotProvided, [])
      ∧ Sdk.getShipment
          [⟨"A-101", ⟨"A-101", "d1", "d2", "d3", []⟩, some 1, none, 0,
            ⟨"A-101", 0, 0, .readyToShip, 1, 1, false, 0, 0, 0, 0, 0⟩⟩] "B-202"
        = (.ok none, [.getItem "B-202"]) :=
  sdk_get_empty_id_vs_missing _ "B-202" (by decide) (by decide)

/-- C10: `UpdateStatus` with the requested status equal to the stored one is a
no-op: it returns the record's current ID, status, last-updated timestamp and
version, the table is unchanged, and the trace holds only the read. -/
theorem sdk_update_status_noop_on_same_status (tbl : Sdk.Table) (id : String)
    (s : Sdk.Shipment) (now : Nat) (hid : id ≠ "")
    (hfind : Sdk.findItem tbl id = some s) :
    Sdk.updateStatus tbl id s.systemInfo.status now =
      (.ok { id := s.id, status := s.systemInfo.status,
             lastUpdatedTimestamp := s.systemInfo.lastUpdatedTimestamp,
             version := s.systemInfo.version }, tbl, [.getItem id]) := by
  unfold Sdk.updateStatus
  simp [hid, hfind]

/-- Witness for `sdk_update_status_noop_on_same_status`: requesting
`READY_TO_SHIP` on a record already in `READY_TO_SHIP` returns its current
fields with version unchanged and no write in the trace. -/
theorem sdk_update_status_noop_on_same_status_witness :
    Sdk.updateStatus
        [⟨"A-101", ⟨"A-101", "d1", "d2", "d3", []⟩, some 1, none, 7,
          ⟨"A-101", 0, 7, .readyToShip, 4, 1, false, 7, 0, 0, 0, 0⟩⟩]
        "A-101" .readyToShip 99
      = (.ok ⟨"A-101", .readyToShip, 7, 4⟩,
          [⟨"A-101", ⟨"A-101", "d1", "d2", "d3", []⟩, some 1, none, 7,
            ⟨"A-101", 0, 7, .readyToShip, 4, 1, false, 7, 0, 0, 0, 0⟩⟩],
          [.getItem "A-101"]) :=
  sdk_update_status_noop_on_same_status _ "A-101"
    ⟨"A-101", ⟨"A-101", "d1", "d2", "d3", []⟩, some 1, none, 7,
      ⟨"A-101", 0, 7, .readyToShip, 4, 1, false, 7, 0, 0, 0, 0⟩⟩ 99 (by decide) (by decide)

/-- C8 (counterexample): `GetQueueStats` does not count by the visibility
predicate. A queue holding one selected (PROCESSING) record whose visibility
window (peeked at instant 0, timeout 60) has long expired by `now = 1000000`
is classified visible — not still-invisible — by the spec's predicate, yet
`TotalRecordsInProcessing` is 1. -/
theorem sdk_queue_stats_processing_not_visibility_counterexample :
    (Sdk.getQueueStats
        [⟨"C-303", ⟨"C-303", "d1", "d2", "d3", []⟩, some 1, none, 0,
          ⟨"C-303", 0, 0, .processingShipment, 2, 1, true, 0, 0, 0, 0, 0⟩⟩]).totalRecordsInProcessing
      = 1
      ∧ (([⟨"C-303", ⟨"C-303", "d1", "d2", "d3", []⟩, some 1, none, 0,
            ⟨"C-303", 0, 0, .processingShipment, 2, 1, true, 0, 0, 0, 0, 0⟩⟩] :
              Sdk.Table).filter (fun s => s.queued == some 1)).countP
          (Sdk.specStillInvisible 1000000 60) = 0 := by
  constructor <;> rfl

/-- C8 (amended): `GetQueueStats` over the queue-index records (partition
`queued = 1`, index order) returns the total count, the count of records whose
selected-from-queue (processing) flag is set — regardless of visibility-timeout
expiry — their difference, and the first `min(100, ·)` IDs of each class in
index order. -/
theorem sdk_get_queue_stats_spec (tbl : Sdk.Table) :
    Sdk.getQueueStats tbl =
      { totalRecordsInProcessing :=
          ((tbl.filter (fun s => s.queued == some 1)).filter
            (fun s => s.systemInfo.selectedFromQueue)).length
        totalRecordsInQueue := (tbl.filter (fun s => s.queued == some 1)).length
        totalRecordsNotStarted :=
          (tbl.filter (fun s => s.queued == some 1)).length
            - ((tbl.filter (fun s => s.queued == some 1)).filter
                (fun s => s.systemInfo.selectedFromQueue)).length
        first100IDsInQueue :=
          ((tbl.filter (fun s => s.queued == some 1)).map (fun s => s.id)).take 100
        first100SelectedIDsInQueue :=
          (((tbl.filter (fun s => s.queued == some 1)).filter
            (fun s => s.systemInfo.selectedFromQueue)).map (fun s => s.id)).take 100 } := by
  unfold Sdk.getQueueStats
  rw [Sdk.statsLoop_spec]
  simp

/-- C4 (evaluation at the failing input): the record `B-202` enters the queue
with queue-index sort key (top-level `last_updated_timestamp`) 0; the receive
(`Peek`) update built at instant 10 rewrites that attribute to 10 in the
stored record, although the comment above the expression in `Peek` states the
top-level `last_updated_timestamp` is not updated, precisely to avoid
re-indexing the record's position. -/
theorem sdk_peek_rewrites_queue_index_sort_key :
    ∃ item tbl2,
      Sdk.updateDynamoDBItem
          [⟨"B-202", ⟨"B-202", "d1", "d2", "d3", []⟩, some 1, none, 0,
            ⟨"B-202", 0, 0, .readyToShip, 1, 1, false, 0, 0, 0, 0, 0⟩⟩]
          "B-202"
          (Sdk.buildSpec .peek
            ⟨"B-202", ⟨"B-202", "d1", "d2", "d3", []⟩, some 1, none, 0,
              ⟨"B-202", 0, 0, .readyToShip, 1, 1, false, 0, 0, 0, 0, 0⟩⟩ 10)
        = .ok (item, tbl2)
      ∧ item.lastUpdatedTimestamp = 10
      ∧ (Sdk.findItem tbl2 "B-202").map (fun s => s.lastUpdatedTimestamp) = some 10 :=
  ⟨_, _, rfl, rfl, rfl⟩

namespace MQ

/-!
## The newer "Message / queue_type" client

The client and message-state sources of this generation are not part of this
tree — only their tests (`TestDynamoMQClient...`) and thin wrappers
(`producer.go`, `result.go`) are — so the operations below are modelled from
the specification (§3, §4.1, §4.2) and checked against the expectations of
those in-tree tests. A table is a `List Message` kept in queue-index order
(ascending `queue_add_timestamp`).
-/

/-- Error taxonomy of the newer client (spec §4.5). -/
inductive Err where
  | idNotProvided
  | idNotFound
  | idDuplicated
  | emptyQueue
  | conditionalCheckFailed
  | invalidStateTransition
  deriving Repr, DecidableEq

/-- Queue membership of a record (spec §3 `QueueType`). -/
inductive QueueType where
  | standard
  | dlq
  deriving Repr, DecidableEq

/-- Visibility state of a record (spec §3 `Status`). -/
inductive Status where
  | ready
  | processing
  deriving Repr, DecidableEq

/-- Modelled from the spec (the `Message` data model of §3; `message.go` is
not in this tree). `receivedAt = none` models the empty `ReceivedAt` string.
The payload is kept as an opaque string. -/
structure Message where
  id : String
  data : String
  queueType : QueueType
  status : Status
  receiveCount : Nat
  version : Nat
  createdAt : Nat
  updatedAt : Nat
  sentAt : Nat
  receivedAt : Option Nat
  queueAddTimestamp : Nat
  visibilityTimeout : Nat
  deriving Repr, DecidableEq

/-- The table of the newer model, in queue-index order. -/
abbrev MTable := List Message

/-- `GetItem` by primary key. -/
def findMessage (tbl : MTable) (id : String) : Option Message :=
  tbl.find? (fun m => m.id == id)

/-- `Result` of the newer client's mutating operations. -/
structure MResult where
  id : String
  status : Status
  updatedAt : Nat
  version : Nat
  deriving Repr, DecidableEq

/-- Modelled from the spec (§4.2 `SendMessage`; `client.go` is not in this
tree): a fresh record — Version 1, READY, STANDARD, timestamps `now`,
`QueueAddTimestamp = now + DelaySeconds`. -/
def NewMessage (id data : String) (delaySeconds now : Nat) : Message :=
  { id := id
    data := data
    queueType := .standard
    status := .ready
    receiveCount := 0
    version := 1
    createdAt := now
    updatedAt := now
    sentAt := now
    receivedAt := none
    queueAddTimestamp := now + delaySeconds
    visibilityTimeout := 0 }

/-- Modelled from the spec (§4.1 visibility predicate; `message.go` is not in
this tree): a record is visible — eligible for receive — iff `Status = READY`
or `now ≥ ReceivedAt + VisibilityTimeout`. -/
def isVisible (now : Nat) (m : Message) : Bool :=
  m.status == .ready || decide (m.receivedAt.getD 0 + m.visibilityTimeout ≤ now)

/-- Modelled from the spec (§4.1 `markAsProcessing`; `message.go` is not in
this tree): the READY→PROCESSING transition, valid on a visible record (§5
"a PROCESSING record whose visibility window has passed is indistinguishable
from a READY record for the purposes of receive eligibility"): sets
`Status = PROCESSING`, `ReceivedAt = now`, the visibility timeout and
`UpdatedAt`, and increments `ReceiveCount`. It does not touch `version`. -/
def markAsProcessing (now vt : Nat) (m : Message) : Except Err Message :=
  if isVisible now m then
    .ok { m with
      status := .processing
      receivedAt := some now
      visibilityTimeout := vt
      updatedAt := now
      receiveCount := m.receiveCount + 1 }
  else .error .invalidStateTransition

/-- Modelled from the spec (§4.1 `markAsMovedToDLQ`; `message.go` is not in
this tree): valid from STANDARD in any status: sets `QueueType = DLQ`,
`Status = READY`, `VisibilityTimeout = 0`, `ReceiveCount = 0`, `SentAt`,
`QueueAddTimestamp` and `UpdatedAt` to `now`, and clears `ReceivedAt`. It
does not touch `version`. -/
def markAsMovedToDLQ (now : Nat) (m : Message) : Except Err Message :=
  if m.queueType == .dlq then .error .invalidStateTransition
  else
    .ok { m with
      queueType := .dlq
      status := .ready
      visibilityTimeout := 0
      receiveCount := 0
      sentAt := now
      queueAddTimestamp := now
      receivedAt := none
      updatedAt := now }

/-- Modelled from the spec (§4.3 expression family 1; the expression sources
of the newer client are not in this tree): conditional `UpdateItem` writing
the marked copy with `ADD version 1` under the predicate
`version = condVersion`; the condition failing — also when the key is absent —
is `ConditionalCheckFailedError`. -/
def updateMessage (tbl : MTable) (id : String) (condVersion : Nat) (marked : Message) :
    Except Err (Message × MTable) :=
  match findMessage tbl id with
  | none => .error .conditionalCheckFailed
  | some stored =>
    if stored.version == condVersion then
      let m3 := { marked with version := stored.version + 1 }
      .ok (m3, tbl.map (fun t => if t.id == id then m3 else t))
    else .error .conditionalCheckFailed

/-- Modelled from the spec (§4.2 `SendMessage`; `client.go` is not in this
tree): validate the ID, then write the fresh record under the store condition
`attribute_not_exists(ID)` — the write succeeds only when no record with the
ID exists; an existing record yields `IDDuplicatedError` and the table is
untouched (pinned by `TestDynamoMQClientSendMessage`). -/
def sendMessage (tbl : MTable) (id data : String) (delaySeconds now : Nat) :
    Except Err Message × MTable :=
  if id = "" then (.error .idNotProvided, tbl)
  else
    match findMessage tbl id with
    | some _ => (.error .idDuplicated, tbl)
    | none =>
      let m := NewMessage id data delaySeconds now
      (.ok m, tbl ++ [m])

/-- Modelled from the spec (§4.2 `ReceiveMessage` with the §4.2 ordering
guarantee for `UseFIFO=true`; `client.go` is not in this tree): walk the
STANDARD-queue candidates in index order; an invisible candidate is skipped
when `UseFIFO=false` but aborts the call with `EmptyQueueError` when
`UseFIFO=true` ("receive fails fast rather than skipping a contended head";
pinned by `TestDynamoMQClientReceiveMessageUseFIFO`); the first visible
candidate is claimed via `markAsProcessing`. -/
def receiveLoop (useFIFO : Bool) (now vt : Nat) : List Message → Except Err Message
  | [] => .error .emptyQueue
  | m :: rest =>
    if isVisible now m then markAsProcessing now vt m
    else if useFIFO then .error .emptyQueue
    else receiveLoop useFIFO now vt rest

/-- Modelled from the spec (§4.2 `ReceiveMessage`; `client.go` is not in this
tree): select a candidate with `receiveLoop`, then claim it with the
conditional version-checked update; exhaustion is `EmptyQueueError`. -/
def receiveMessage (tbl : MTable) (useFIFO : Bool) (now vt : Nat) :
    Except Err MResult × MTable :=
  match receiveLoop useFIFO now vt (tbl.filter (fun m => m.queueType == .standard)) with
  | .error e => (.error e, tbl)
  | .ok marked =>
    match updateMessage tbl marked.id marked.version marked with
    | .error e => (.error e, tbl)
    | .ok (m3, tbl2) =>
      (.ok { id := m3.id, status := m3.status, updatedAt := m3.updatedAt,
             version := m3.version }, tbl2)

/-- Modelled from the spec (§4.2 `DeleteMessage`; `client.go` is not in this
tree): empty ID → `IDNotProvidedError`, otherwise an unconditional
primary-key delete. -/
def deleteMessage (tbl : MTable) (id : String) : Except Err Unit × MTable :=
  if id = "" then (.error .idNotProvided, tbl)
  else (.ok (), tbl.filter (fun m => !(m.id == id)))

/-- Modelled from the spec (§4.2 `MoveMessageToDLQ`; `client.go` is not in
this tree): read the record; a record already in the DLQ returns success with
its current fields and no write; otherwise apply `markAsMovedToDLQ` and the
conditional version-checked update (pinned by
`TestDynamoMQClientMoveMessageToDLQ`). -/
def moveMessageToDLQ (tbl : MTable) (id : String) (now : Nat) :
    Except Err MResult × MTable :=
  if id = "" then (.error .idNotProvided, tbl)
  else
    match findMessage tbl id with
    | none => (.error .idNotFound, tbl)
    | some m =>
      if m.queueType == .dlq then
        (.ok { id := m.id, status := m.status, updatedAt := m.updatedAt,
               version := m.version }, tbl)
      else
        match markAsMovedToDLQ now m with
        | .error e => (.error e, tbl)
        | .ok marked =>
          match updateMessage tbl id m.version marked with
          | .error e => (.error e, tbl)
          | .ok (m3, tbl2) =>
            (.ok { id := m3.id, status := m3.status, updatedAt := m3.updatedAt,
                   version := m3.version }, tbl2)

/-- A serial consumer over a FIFO queue, mirroring
`TestDynamoMQClientReceiveMessageUseFIFO`: each step receives the next
message, probes with a second receive while the claimed message is still in
flight (recording whether the probe returned `EmptyQueueError`), and then
completes the message with `DeleteMessage`. -/
def serialConsume : Nat → MTable → Nat → Nat → List (String × Bool)
  | 0, _, _, _ => []
  | Nat.succ n, tbl, now, vt =>
    match receiveMessage tbl true now vt with
    | (.error _, _) => []
    | (.ok out, tbl1) =>
      let probe :=
        match (receiveMessage tbl1 true now vt).1 with
        | .error .emptyQueue => true
        | _ => false
      let tbl2 := (deleteMessage tbl1 out.id).2
      (out.id, probe) :: serialConsume n tbl2 now vt

lemma findMessage_map_pred_preserved (tbl : MTable) (id : String)
    (g : Message → Message) (hg : ∀ t, (g t).id = t.id) :
    findMessage (tbl.map g) id = (findMessage tbl id).map g := by
  unfold findMessage
  have hpg : ((fun m : Message => m.id == id) ∘ g) = (fun m : Message => m.id == id) := by
    funext t
    simp [Function.comp, hg]
  rw [List.find?_map, hpg]

end MQ

namespace MQ

lemma map_unmatched (rest : MTable) (mid : String) (m3 : Message)
    (h : ∀ t ∈ rest, (t.id == mid) = false) :
    rest.map (fun t => if t.id == mid then m3 else t) = rest := by
  induction rest with
  | nil => rfl
  | cons a l ih =>
    have ha := h a (by simp)
    simp only [List.map_cons, ha, Bool.false_eq_true, if_false]
    rw [ih (fun t ht => h t (by simp [ht]))]

lemma filter_unmatched (rest : MTable) (mid : String)
    (h : ∀ t ∈ rest, (t.id == mid) = false) :
    rest.filter (fun t => !(t.id == mid)) = rest := by
  refine List.filter_eq_self.mpr ?_
  intro t ht
  simp [h t ht]

end MQ

/-- C3: `SendMessage` writes only under `attribute_not_exists(ID)`: when a
record with the same ID is already stored, a second `SendMessage` returns
`IDDuplicatedError` and the table — in particular the existing record — is
completely unchanged. -/
theorem mq_send_message_duplicate_preserves_record (tbl : MQ.MTable)
    (id data : String) (delaySeconds now : Nat) (m : MQ.Message)
    (hid : id ≠ "") (hfind : MQ.findMessage tbl id = some m) :
    MQ.sendMessage tbl id data delaySeconds now = (.error .idDuplicated, tbl) := by
  simp [MQ.sendMessage, hid, hfind]

/-- Witness for `mq_send_message_duplicate_preserves_record`: with `A-101`
already stored, `SendMessage` of `A-101` again fails with
`IDDuplicatedError` and the table is unchanged. -/
theorem mq_send_message_duplicate_preserves_record_witness :
    MQ.sendMessage [MQ.NewMessage "A-101" "d" 0 10] "A-101" "d" 0 20
      = (.error .idDuplicated, [MQ.NewMessage "A-101" "d" 0 10]) :=
  mq_send_message_duplicate_preserves_record _ "A-101" "d" 0 20
    (MQ.NewMessage "A-101" "d" 0 10) (by decide) (by rfl)

/-- C2: a PROCESSING record received at `t` with visibility timeout `delta` is
skipped by a receive before `t + delta` — with no other candidate the call
returns `EmptyQueueError` — and is claimed by a receive at or after
`t + delta`, with its version incremented and status PROCESSING again. -/
theorem mq_receive_visibility_window (m : MQ.Message) (t delta now1 now2 vt : Nat)
    (fifo : Bool)
    (hq : m.queueType = .standard) (hst : m.status = .processing)
    (hrecv : m.receivedAt = some t) (hvt : m.visibilityTimeout = delta)
    (h1 : now1 < t + delta) (h2 : t + delta ≤ now2) :
    (MQ.receiveMessage [m] fifo now1 vt).1 = .error .emptyQueue
      ∧ ∃ out tbl2, MQ.receiveMessage [m] fifo now2 vt = (.ok out, tbl2)
          ∧ out.version = m.version + 1
          ∧ out.id = m.id
          ∧ out.status = .processing := by
  have hfilter : ([m] : MQ.MTable).filter (fun x => x.queueType == .standard) = [m] := by
    simp [hq]
  have hvis1 : MQ.isVisible now1 m = false := by
    unfold MQ.isVisible
    rw [hst, hrecv, hvt]
    simp only [Option.getD_some]
    simp
    omega
  have hvis2 : MQ.isVisible now2 m = true := by
    unfold MQ.isVisible
    rw [hrecv, hvt]
    simp [h2]
  constructor
  · cases fifo <;>
      simp [MQ.receiveMessage, hfilter, MQ.receiveLoop, hvis1]
  · have hfind : MQ.findMessage [m] m.id = some m := by
      simp [MQ.findMessage]
    simp only [MQ.receiveMessage, hfilter, MQ.receiveLoop, hvis2, if_true,
      MQ.markAsProcessing]
    simp only [MQ.updateMessage, hfind, beq_self_eq_true, if_true, List.map_cons,
      List.map_nil]
    refine ⟨_, _, rfl, ?_, ?_, ?_⟩ <;> simp

/-- Witness for `mq_receive_visibility_window`: `B-202` in PROCESSING,
received at instant 0 with timeout 60; the receive at 59 returns
`EmptyQueueError`, the receive at 61 claims it with version 2 → 3. -/
theorem mq_receive_visibility_window_witness :
    (MQ.receiveMessage [⟨"B-202", "d", .standard, .processing, 1, 2, 0, 0, 0, some 0, 0, 60⟩]
        false 59 60).1 = .error .emptyQueue
      ∧ ∃ out tbl2,
          MQ.receiveMessage [⟨"B-202", "d", .standard, .processing, 1, 2, 0, 0, 0, some 0, 0, 60⟩]
            false 61 60 = (.ok out, tbl2)
          ∧ out.version = 2 + 1
          ∧ out.id = "B-202"
          ∧ out.status = .processing :=
  mq_receive_visibility_window
    ⟨"B-202", "d", .standard, .processing, 1, 2, 0, 0, 0, some 0, 0, 60⟩
    0 60 59 61 60 false rfl rfl rfl rfl (by decide) (by decide)

/-- C6: `MoveMessageToDLQ` is idempotent on a record already in the DLQ —
success with the record's current status, updated-at and version, and the
table untouched (no write) — and on a STANDARD-queue record it applies
`markAsMovedToDLQ` under the version-checked conditional update, yielding
`QueueType=DLQ`, `Status=READY`, `ReceiveCount=0` and version `v + 1`. -/
theorem mq_move_to_dlq_idempotent_and_marks (tbl : MQ.MTable) (id : String)
    (now : Nat) (m : MQ.Message) (hid : id ≠ "")
    (hfind : MQ.findMessage tbl id = some m) :
    (m.queueType = .dlq →
      MQ.moveMessageToDLQ tbl id now
        = (.ok { id := m.id, status := m.status, updatedAt := m.updatedAt,
                 version := m.version }, tbl))
      ∧ (m.queueType = .standard →
        ∃ tbl2,
          MQ.moveMessageToDLQ tbl id now
            = (.ok { id := m.id, status := .ready, updatedAt := now,
                     version := m.version + 1 }, tbl2)
          ∧ ∃ m3, MQ.findMessage tbl2 id = some m3
              ∧ m3.queueType = .dlq
              ∧ m3.status = .ready
              ∧ m3.receiveCount = 0
              ∧ m3.version = m.version + 1) := by
  have hmid : m.id = id := by
    have hf2 : List.find? (fun t : MQ.Message => t.id == id) tbl = some m := hfind
    have hps := List.find?_some hf2
    simpa using hps
  constructor
  · intro hdlq
    simp [MQ.moveMessageToDLQ, hid, hfind, hdlq]
  · intro hstd
    have hnotdlq : (m.queueType == MQ.QueueType.dlq) = false := by
      rw [hstd]
      rfl
    simp only [MQ.moveMessageToDLQ, hid, if_neg, hfind, hnotdlq, Bool.false_eq_true,
      if_false, MQ.markAsMovedToDLQ, MQ.updateMessage, beq_self_eq_true, if_true]
    refine ⟨_, rfl, ?_⟩
    refine ⟨({ m with
        queueType := MQ.QueueType.dlq
        status := MQ.Status.ready
        visibilityTimeout := 0
        receiveCount := 0
        sentAt := now
        queueAddTimestamp := now
        receivedAt := none
        updatedAt := now
        version := m.version + 1 } : MQ.Message), ?_, rfl, rfl, rfl, rfl⟩
    have hg : ∀ t : MQ.Message,
        ((if t.id == id then
            ({ m with
                queueType := MQ.QueueType.dlq
                status := MQ.Status.ready
                visibilityTimeout := 0
                receiveCount := 0
                sentAt := now
                queueAddTimestamp := now
                receivedAt := none
                updatedAt := now
                version := m.version + 1 } : MQ.Message)
          else t)).id = t.id := by
      intro t
      by_cases ht : t.id == id
      · have ht2 : t.id = id := by simpa using ht
        simp [ht, ht2, hmid]
      · simp [ht]
    rw [MQ.findMessage_map_pred_preserved _ _ _ hg, hfind]
    simp [hmid]

/-- Witness for `mq_move_to_dlq_idempotent_and_marks`: moving the PROCESSING
standard-queue record `A-101` (version 2) at instant 10 yields a DLQ record in
READY with zero receive count and version 3. -/
theorem mq_move_to_dlq_idempotent_and_marks_witness :
    ((⟨"A-101", "d", .standard, .processing, 1, 2, 0, 5, 0, some 5, 0, 1⟩ : MQ.Message).queueType
        = .dlq →
      MQ.moveMessageToDLQ
          [⟨"A-101", "d", .standard, .processing, 1, 2, 0, 5, 0, some 5, 0, 1⟩] "A-101" 10
        = (.ok { id := "A-101", status := .processing, updatedAt := 5, version := 2 },
           [⟨"A-101", "d", .standard, .processing, 1, 2, 0, 5, 0, some 5, 0, 1⟩]))
      ∧ ((⟨"A-101", "d", .standard, .processing, 1, 2, 0, 5, 0, some 5, 0, 1⟩ : MQ.Message).queueType
          = .standard →
        ∃ tbl2,
          MQ.moveMessageToDLQ
              [⟨"A-101", "d", .standard, .processing, 1, 2, 0, 5, 0, some 5, 0, 1⟩] "A-101" 10
            = (.ok { id := "A-101", status := .ready, updatedAt := 10, version := 3 }, tbl2)
          ∧ ∃ m3, MQ.findMessage tbl2 "A-101" = some m3
              ∧ m3.queueType = .dlq
              ∧ m3.status = .ready
              ∧ m3.receiveCount = 0
              ∧ m3.version = 3) :=
  mq_move_to_dlq_idempotent_and_marks _ "A-101" 10
    ⟨"A-101", "d", .standard, .processing, 1, 2, 0, 5, 0, some 5, 0, 1⟩ (by decide) rfl

namespace MQ

/-- The in-flight copy of a message claimed by a FIFO receive at `now` with
visibility timeout `vt`: `markAsProcessing` applied and the version bumped by
the conditional update. -/
def claimedCopy (m : Message) (now vt : Nat) : Message :=
  { m with
    status := .processing
    receivedAt := some now
    visibilityTimeout := vt
    updatedAt := now
    receiveCount := m.receiveCount + 1
    version := m.version + 1 }

end MQ

/-- C5: with `UseFIFO=true`, a serial consumer over a standard queue of READY
records seeded in ascending `QueueAddTimestamp` order (the order of the
`SendMessage` calls) receives the IDs in exactly that order, each receive
completed by `DeleteMessage` before the next one; and every receive issued
while the claimed message was still in flight returned `EmptyQueueError`
instead of skipping the head (the `true` flags). -/
theorem mq_fifo_serial_receive_order (tbl : MQ.MTable) (now vt : Nat)
    (hvt : 0 < vt)
    (hstd : ∀ m ∈ tbl, m.queueType = .standard)
    (hready : ∀ m ∈ tbl, m.status = .ready)
    (hne : ∀ m ∈ tbl, m.id ≠ "")
    (hids : tbl.Pairwise (fun a b => a.id ≠ b.id))
    (hsorted : tbl.Pairwise (fun a b => a.queueAddTimestamp < b.queueAddTimestamp)) :
    MQ.serialConsume tbl.length tbl now vt = tbl.map (fun m => (m.id, true)) := by
  induction tbl with
  | nil => rfl
  | cons m rest ih =>
    have hm_std : m.queueType = .standard := hstd m (by simp)
    have hm_ready : m.status = .ready := hready m (by simp)
    have hm_ne : m.id ≠ "" := hne m (by simp)
    have hrest_nomatch : ∀ t ∈ rest, (t.id == m.id) = false := by
      intro t ht
      have hne2 := (List.pairwise_cons.mp hids).1 t ht
      simp only [beq_eq_false_iff_ne, ne_eq]
      exact fun he => hne2 he.symm
    have hvism : MQ.isVisible now m = true := by
      simp [MQ.isVisible, hm_ready]
    have hfilter : (m :: rest).filter (fun x => x.queueType == MQ.QueueType.standard)
        = m :: rest := by
      refine List.filter_eq_self.mpr ?_
      intro a ha
      simp [hstd a ha]
    have hfind1 : MQ.findMessage (m :: rest) m.id = some m := by
      simp [MQ.findMessage]
    have hrecv1 : MQ.receiveMessage (m :: rest) true now vt
        = (.ok { id := m.id, status := .processing, updatedAt := now,
                 version := m.version + 1 },
           MQ.claimedCopy m now vt :: rest) := by
      unfold MQ.receiveMessage
      rw [hfilter]
      simp only [MQ.receiveLoop, hvism, if_true, MQ.markAsProcessing]
      simp only [MQ.updateMessage, hfind1, beq_self_eq_true, if_true, List.map_cons]
      rw [MQ.map_unmatched rest m.id _ hrest_nomatch]
      rfl
    have hvism3 : MQ.isVisible now (MQ.claimedCopy m now vt) = false := by
      simp [MQ.isVisible, MQ.claimedCopy]
      omega
    have hfilter3 :
        (MQ.claimedCopy m now vt :: rest).filter
            (fun x => x.queueType == MQ.QueueType.standard)
          = MQ.claimedCopy m now vt :: rest := by
      refine List.filter_eq_self.mpr ?_
      intro a ha
      rcases List.mem_cons.mp ha with ha2 | ha2
      · rw [ha2]
        simp [MQ.claimedCopy, hm_std]
      · simp [hstd a (by simp [ha2])]
    have hprobe : (MQ.receiveMessage (MQ.claimedCopy m now vt :: rest) true now vt).1
        = .error .emptyQueue := by
      unfold MQ.receiveMessage
      rw [hfilter3]
      simp only [MQ.receiveLoop, hvism3, Bool.false_eq_true, if_false, if_true]
    have hdel : (MQ.deleteMessage (MQ.claimedCopy m now vt :: rest) m.id).2 = rest := by
      unfold MQ.deleteMessage
      rw [if_neg hm_ne]
      simp only [List.filter_cons, MQ.claimedCopy, beq_self_eq_true, Bool.not_true,
        Bool.false_eq_true, if_false]
      exact MQ.filter_unmatched rest m.id hrest_nomatch
    simp only [List.length_cons, MQ.serialConsume, hrecv1, hprobe, hdel, List.map_cons]
    rw [ih (fun a ha => hstd a (by simp [ha])) (fun a ha => hready a (by simp [ha]))
      (fun a ha => hne a (by simp [ha])) (List.pairwise_cons.mp hids).2
      (List.pairwise_cons.mp hsorted).2]

/-- Witness for `mq_fifo_serial_receive_order`: `A-303`, `A-202`, `A-101`
seeded with queue-add instants 1, 2, 3; the serial FIFO consumer at instant 10
with timeout 60 receives them in exactly that order and every in-flight probe
returned `EmptyQueueError`. -/
theorem mq_fifo_serial_receive_order_witness :
    MQ.serialConsume 3
        [MQ.NewMessage "A-303" "d" 0 1, MQ.NewMessage "A-202" "d" 0 2,
         MQ.NewMessage "A-101" "d" 0 3] 10 60
      = [("A-303", true), ("A-202", true), ("A-101", true)] :=
  mq_fifo_serial_receive_order
    [MQ.NewMessage "A-303" "d" 0 1, MQ.NewMessage "A-202" "d" 0 2,
     MQ.NewMessage "A-101" "d" 0 3] 10 60
    (by decide) (by decide) (by decide) (by decide) (by decide) (by decide)
